import Mathlib

/-!
Shallow embedding of the ObsidiRAG core: the file-status store and its
watchdog handlers (src/databases/file/crud.py, src/core/monitor/handler.py),
the chunk/embed/store indexing pipeline (src/core/indexing/index.py) and the
indexing API routes (src/core/indexing/api.py).

The persisted status table is modelled as a list of rows in insertion order;
SQLAlchemy statements become list operations; a Python exception that escapes
a function is modelled with `Except`, and an exception that the source
catches and converts (to `None` or `False`) is modelled by the converted
value directly.
-/

/-- Mirrors `FileStatusEnum` (src/databases/file/models/file_status_enum.py). -/
inductive FileStatusEnum where
  | PENDING
  | MODIFIED
  | SYNCED
  | DELETED
  | ERROR
deriving DecidableEq, Repr

/-- Mirrors the `FileStatus` ORM model (src/databases/file/models/file_status.py):
`id` is the primary key, `name`, `path` and `status` are non-null columns;
`path` carries no uniqueness constraint. -/
structure FileStatus where
  id : String
  name : String
  path : String
  status : FileStatusEnum
deriving DecidableEq, Repr

/-- Mirrors SQLAlchemy `scalar_one_or_none`: `none` on zero rows, the row on
exactly one, and the `MultipleResultsFound` exception on more than one. -/
def scalar_one_or_none {α : Type} : List α → Except String (Option α)
  | [] => .ok none
  | [a] => .ok (some a)
  | _ => .error "MultipleResultsFound"

/-- Mirrors `create_file_status` (crud.py): a plain INSERT of the four columns;
the only constraint the table declares is the primary key on `id`. -/
def create_file_status (db : List FileStatus) (fs : FileStatus) :
    Except String (List FileStatus) :=
  if db.any (fun r => r.id == fs.id) then
    .error "IntegrityError"
  else
    .ok (db ++ [fs])

/-- Mirrors `get_file_status` (crud.py): SELECT by `id`, `scalar_one_or_none`. -/
def get_file_status (db : List FileStatus) (file_id : String) :
    Except String (Option FileStatus) :=
  scalar_one_or_none (db.filter (fun r => r.id == file_id))

/-- Mirrors `update_file_status` (crud.py): UPDATE `status` WHERE `id` matches. -/
def update_file_status (db : List FileStatus) (file_id : String)
    (new_status : FileStatusEnum) : List FileStatus :=
  db.map (fun r => if r.id == file_id then { r with status := new_status } else r)

/-- Mirrors `delete_file_status` (crud.py): a physical DELETE WHERE `id` matches. -/
def delete_file_status (db : List FileStatus) (file_id : String) :
    List FileStatus :=
  db.filter (fun r => !(r.id == file_id))

/-- Mirrors `get_file_status_by_path` (crud.py): SELECT by `path`,
`scalar_one_or_none`; note that no status filter is applied. -/
def get_file_status_by_path (db : List FileStatus) (file_path : String) :
    Except String (Option FileStatus) :=
  scalar_one_or_none (db.filter (fun r => r.path == file_path))

/-- Mirrors Python `new_path.split("/")[-1]` and `os.path.basename` on POSIX
paths: the component after the last slash (the whole string when no slash
occurs, empty on a trailing slash), computed as the longest slash-free
suffix. -/
def basename (p : String) : String :=
  String.mk ((p.toList.reverse.takeWhile (fun c => !(c == '/'))).reverse)

/-- Mirrors `rename_file_status` (crud.py): UPDATE `path` and `name` WHERE
`path` equals the old path; `id` and `status` are not touched. -/
def rename_file_status (db : List FileStatus) (old_path new_path : String) :
    List FileStatus :=
  db.map (fun r =>
    if r.path == old_path then
      { r with path := new_path, name := basename new_path }
    else r)

/-- Mirrors `WatchdogHandler.on_created` (handler.py): builds a fresh record
with a generated id (here a parameter standing for `uuid4().hex`), the
basename of the event path, the path, and status PENDING, then inserts it.
No lookup for an existing record at the path is performed. -/
def on_created (db : List FileStatus) (new_id src_path : String) :
    Except String (List FileStatus) :=
  create_file_status db
    { id := new_id, name := basename src_path, path := src_path,
      status := FileStatusEnum.PENDING }

/-- Mirrors `WatchdogHandler.on_modified` via `_update_file_status_async`
(handler.py): look the path up; if a record exists, set its status to
MODIFIED; otherwise do nothing. -/
def on_modified (db : List FileStatus) (src_path : String) :
    Except String (List FileStatus) := do
  let existing ← get_file_status_by_path db src_path
  match existing with
  | some r => pure (update_file_status db r.id FileStatusEnum.MODIFIED)
  | none => pure db

/-- Mirrors `WatchdogHandler.on_deleted` via `_delete_file_status_async`
(handler.py): look the path up; if a record exists, call
`delete_file_status`, which issues a physical DELETE of the row. -/
def on_deleted (db : List FileStatus) (src_path : String) :
    Except String (List FileStatus) := do
  let existing ← get_file_status_by_path db src_path
  match existing with
  | some r => pure (delete_file_status db r.id)
  | none => pure db

/-- Mirrors `WatchdogHandler.on_moved` via `_rename_file_status_async`
(handler.py): unconditionally run the rename UPDATE. -/
def on_moved (db : List FileStatus) (src_path dest_path : String) :
    Except String (List FileStatus) :=
  .ok (rename_file_status db src_path dest_path)

/-- Mirrors Python `range(start, stop, step)` for a positive step: the indices
`start, start+step, ...` below `stop`; their count is `⌈(stop-start)/step⌉`,
which is exactly how CPython sizes a range object. -/
def range_step (start stop step : Nat) : List Nat :=
  (List.range ((stop - start + step - 1) / step)).map (fun k => start + k * step)

/-- Mirrors `chunk_text` (index.py) in its character-based fallback branch
(the `ImportError` path): slices `text[i : i + chunk_size]` for `i` in
`range(0, len(text), chunk_size - overlap)`. Stated over an arbitrary element
type, since Python string slicing acts positionally. -/
def chunk_text {α : Type} (text : List α) (chunk_size overlap : Nat) :
    List (List α) :=
  (range_step 0 text.length (chunk_size - overlap)).map
    (fun i => (text.drop i).take chunk_size)

/-- Overlap of two consecutive windows by exactly `m` units: both windows hold
at least `m` elements and the last `m` of the first equal the first `m` of
the second. -/
def OverlapBy {α : Type} (m : Nat) (c1 c2 : List α) : Prop :=
  m ≤ c1.length ∧ m ≤ c2.length ∧ c1.drop (c1.length - m) = c2.take m

instance {α : Type} [DecidableEq α] (m : Nat) (c1 c2 : List α) :
    Decidable (OverlapBy m c1 c2) :=
  inferInstanceAs (Decidable (_ ∧ _ ∧ _))

/-- Embedding vectors, modelled as rational-valued coordinate lists (the
numeric payload is irrelevant to every property proved here). -/
abbrev EmbVec := List ℚ

/-- Models the external OpenAI embedding provider behind `client.embeddings.create`:
`none` stands for the call raising (service unreachable, auth failure, ...),
`some` for a successful batch of vectors. -/
abbrev Embedder := List String → Option (List EmbVec)

/-- Mirrors `create_embeddings` (index.py): delegates the whole batch to the
provider; a provider exception is logged and re-raised. -/
def create_embeddings (provider : Embedder) (texts : List String) :
    Except String (List EmbVec) :=
  match provider texts with
  | some vs => .ok vs
  | none => .error "Error creating embeddings"

/-- Mirrors the LanceDB row schema declared in `index_file` (index.py):
vector, text, file_id, file_path, chunk_index. -/
structure VectorRow where
  vector : EmbVec
  text : String
  file_id : String
  file_path : String
  chunk_index : Nat
deriving DecidableEq, Repr

/-- Models the external LanceDB database: `table = none` when the
`obsidirag_index` table has not been created yet, otherwise the rows in
insertion order. -/
structure VectorStore where
  table : Option (List VectorRow)
deriving DecidableEq, Repr

/-- Mirrors `Path(p).suffix` from pathlib: the dotted extension of the final
path component, empty when that component has no interior dot (a leading or
trailing dot does not count). -/
def path_suffix (p : String) : String :=
  let nm := (basename p).toList
  let after := nm.reverse.takeWhile (fun c => !(c == '.'))
  if after.length = nm.length then ""
  else
    let i := nm.length - after.length - 1
    if 0 < i ∧ i < nm.length - 1 then String.mk (nm.drop i) else ""

/-- Mirrors Python `str.lower` as used on the suffix. -/
def lower_string (s : String) : String :=
  String.mk (s.toList.map Char.toLower)

/-- Mirrors the extension allow-list in `read_file_content` (index.py). -/
def allowed_extensions : List String :=
  [".md", ".txt", ".py", ".js", ".ts", ".json", ".yaml", ".yml", ".csv"]

/-- Models the filesystem seen by the pipeline: an association list from path
to `some content` for a readable file, or to `none` for a path that exists
but whose read raises. An absent path models a missing file. -/
abbrev FileSystem := List (String × Option String)

/-- Mirrors `read_file_content` (index.py): `None` when the path does not
exist, when the (lower-cased) suffix is not allow-listed, or when reading
raises; all exceptions are caught and converted to `None`. -/
def read_file_content (fs : FileSystem) (file_path : String) : Option String :=
  match fs.lookup file_path with
  | none => none
  | some content_or_raise =>
    if allowed_extensions.contains (lower_string (path_suffix file_path)) then
      content_or_raise
    else none

/-- Mirrors `index_file` (index.py): read, chunk, embed, then append one row
per chunk to the table (creating it when absent). Every exception inside —
including a provider failure raised by `create_embeddings` — is caught by the
enclosing `try` and turned into the failure outcome `false`, leaving the
store untouched. `not content` is also true for empty content. -/
def index_file (provider : Embedder) (fs : FileSystem) (store : VectorStore)
    (file_path file_id : String) : VectorStore × Bool :=
  match read_file_content fs file_path with
  | none => (store, false)
  | some content =>
    if content.toList.length = 0 then (store, false)
    else
      let chunks := (chunk_text content.toList 1000 200).map (fun l => String.mk l)
      if chunks.length = 0 then (store, false)
      else
        match provider chunks with
        | none => (store, false)
        | some embeddings =>
          let table := match store.table with
            | none => []
            | some rows => rows
          let data := ((chunks.zip embeddings).enum).map (fun e =>
            { vector := e.2.2, text := e.2.1, file_id := file_id,
              file_path := file_path, chunk_index := e.1 : VectorRow })
          ({ table := some (table ++ data) }, true)

/-- Success of `index_file` does not depend on the store contents or the id:
the projection of its boolean outcome, used to state batch accounting. -/
def index_file_ok (provider : Embedder) (fs : FileSystem) (file_path : String) :
    Bool :=
  match read_file_content fs file_path with
  | none => false
  | some content =>
    if content.toList.length = 0 then false
    else
      let chunks := (chunk_text content.toList 1000 200).map (fun l => String.mk l)
      if chunks.length = 0 then false
      else (provider chunks).isSome

/-- Mirrors the result dictionary of `index_files` (index.py). -/
structure IndexResult where
  total : Nat
  success : Nat
  failed : Nat
  failed_files : List String
deriving DecidableEq, Repr

/-- Mirrors the `for file_path, file_id in zip(file_paths, file_ids)` loop of
`index_files`: threads the store, counts successes and failures, and collects
failed paths in iteration order. -/
def index_files_loop (provider : Embedder) (fs : FileSystem) :
    List (String × String) → VectorStore → VectorStore × Nat × Nat × List String
  | [], store => (store, 0, 0, [])
  | (p, i) :: rest, store =>
    let step := index_file provider fs store p i
    let acc := index_files_loop provider fs rest step.1
    if step.2 then (acc.1, acc.2.1 + 1, acc.2.2.1, acc.2.2.2)
    else (acc.1, acc.2.1, acc.2.2.1 + 1, p :: acc.2.2.2)

/-- Mirrors `index_files` (index.py) with explicit ids (the `file_ids=None`
default materializes positional ids before this point): raises `ValueError`
on a length mismatch, otherwise indexes each file in order and reports the
aggregate counts and the failed paths. -/
def index_files (provider : Embedder) (fs : FileSystem)
    (file_paths file_ids : List String) (store : VectorStore) :
    Except String (VectorStore × IndexResult) :=
  if file_paths.length ≠ file_ids.length then
    .error "file_paths and file_ids must have the same length"
  else
    let out := index_files_loop provider fs (file_paths.zip file_ids) store
    .ok (out.1,
      { total := file_paths.length, success := out.2.1, failed := out.2.2.1,
        failed_files := out.2.2.2 })

/-- Mirrors the search result dictionaries of `search_similar` (index.py):
`score` carries the `_distance` column. -/
structure SearchResult where
  text : String
  file_path : String
  file_id : String
  chunk_index : Nat
  score : ℚ
deriving DecidableEq, Repr

/-- Models the L2 metric the external vector store ranks by (squared
Euclidean distance, LanceDB's default `_distance`). -/
def l2_distance (a b : EmbVec) : ℚ :=
  ((a.zip b).map (fun q => (q.1 - q.2) ^ 2)).sum

/-- Models `table.search(query_vector).limit(k)` on the external LanceDB
table per the interface the spec assumes of the vector store: all rows
ranked by ascending distance to the query, truncated to `k`. -/
def lancedb_search (rows : List VectorRow) (qe : EmbVec) (k : Nat) :
    List VectorRow :=
  (List.insertionSort
    (fun r1 r2 => l2_distance qe r1.vector ≤ l2_distance qe r2.vector) rows).take k

/-- Mirrors `search_similar` (index.py): embed the query as a singleton batch
(`[0]` raises on an empty provider reply, caught like every other exception
and converted to `[]`), return `[]` when the table is absent, otherwise
reshape the ranked rows. -/
def search_similar (provider : Embedder) (store : VectorStore) (query : String)
    (lim : Nat) : List SearchResult :=
  match provider [query] with
  | none => []
  | some [] => []
  | some (qe :: _) =>
    match store.table with
    | none => []
    | some rows =>
      (lancedb_search rows qe lim).map (fun r =>
        { text := r.text, file_path := r.file_path, file_id := r.file_id,
          chunk_index := r.chunk_index, score := l2_distance qe r.vector })

/-- Mirrors `delete_file_from_index` (index.py): `False` when the table does
not exist; otherwise delete every row whose `file_id` matches — succeeding
even when no row matches — and return `True`. -/
def delete_file_from_index (store : VectorStore) (file_id : String) :
    VectorStore × Bool :=
  match store.table with
  | none => (store, false)
  | some rows =>
    ({ table := some (rows.filter (fun r => !(r.file_id == file_id))) }, true)

/-- Outcome of the DELETE route for one indexed file (api.py). -/
inductive DeleteApiOutcome where
  | deleted (file_id : String)
  | httpError (status_code : Nat)
deriving DecidableEq, Repr

/-- Mirrors `delete_indexed_file` (api.py): on vector-side success, reset the
status record (when it exists) to PENDING and answer `deleted`; otherwise an
`HTTPException(404)` is raised inside the `try`, caught by the blanket
`except Exception`, and re-raised as a 500 `Delete failed` error. -/
def delete_indexed_file (store : VectorStore) (db : List FileStatus)
    (file_id : String) : VectorStore × List FileStatus × DeleteApiOutcome :=
  let out := delete_file_from_index store file_id
  if out.2 then
    match get_file_status db file_id with
    | .error _ => (out.1, db, .httpError 500)
    | .ok none => (out.1, db, .deleted file_id)
    | .ok (some _) =>
      (out.1, update_file_status db file_id FileStatusEnum.PENDING,
        .deleted file_id)
  else
    (out.1, db, .httpError 500)

/-- Provider used on concrete inputs: fails exactly on the batch `["aaa"]`
(a provider-level outage scoped to one file's call) and returns unit
vectors otherwise. -/
def cex_provider : Embedder := fun ts =>
  if ts = ["aaa"] then none else some (ts.map (fun _ => [(1 : ℚ)]))

/-- Provider used on concrete inputs: always succeeds with unit vectors. -/
def ok_provider : Embedder := fun ts => some (ts.map (fun _ => [(1 : ℚ)]))

/-- Decidable equality for `Except`, used to evaluate handler results on
concrete stores. -/
instance {ε α : Type} [DecidableEq ε] [DecidableEq α] :
    DecidableEq (Except ε α) := fun x y =>
  match x, y with
  | .ok a, .ok b =>
    if h : a = b then isTrue (by rw [h]) else isFalse (by simp [h])
  | .error e, .error f =>
    if h : e = f then isTrue (by rw [h]) else isFalse (by simp [h])
  | .ok _, .error _ => isFalse (by simp)
  | .error _, .ok _ => isFalse (by simp)

/-- Concrete fixture: a PENDING record tracked at `/v/a.md`. -/
def rec_pending : FileStatus := ⟨"i1", "a.md", "/v/a.md", FileStatusEnum.PENDING⟩

/-- Concrete fixture: a SYNCED record tracked at `/v/a.md`. -/
def rec_synced : FileStatus := ⟨"i1", "a.md", "/v/a.md", FileStatusEnum.SYNCED⟩

/-- Concrete fixture: a second PENDING record at the same path `/v/a.md`. -/
def rec_dup : FileStatus := ⟨"i2", "a.md", "/v/a.md", FileStatusEnum.PENDING⟩

/-- Concrete fixture: one stored chunk row owned by file id `f1`. -/
def row_f1 : VectorRow := ⟨[(1 : ℚ)], "t", "f1", "/v/a.md", 0⟩

set_option maxRecDepth 10000

lemma chunk_text_length {α : Type} (t : List α) :
    (chunk_text t 1000 200).length = (t.length + 799) / 800 := by
  simp [chunk_text, range_step]

lemma chunk_text_getD {α : Type} (t : List α) (j : Nat)
    (h : j < (chunk_text t 1000 200).length) :
    (chunk_text t 1000 200).getD j [] = (t.drop (j * 800)).take 1000 := by
  rw [List.getD_eq_getElem _ _ h]
  unfold chunk_text range_step
  simp [Nat.mul_comm]

lemma chunk_pair_bound {α : Type} (t : List α) (j : Nat)
    (h : j + 1 < (chunk_text t 1000 200).length) : (j + 1) * 800 < t.length := by
  rw [chunk_text_length] at h
  have h1 : (j + 2) * 800 ≤ ((t.length + 799) / 800) * 800 :=
    Nat.mul_le_mul_right _ h
  have h2 := Nat.div_mul_le_self (t.length + 799) 800
  omega

lemma slice_drop {α : Type} (t : List α) (A k n : Nat) :
    ((t.drop A).take n).drop k = (t.drop (A + k)).take (n - k) := by
  rw [List.drop_take, List.drop_drop]

/-- C3: the claim asserts that in character-fallback mode with window 1000
and overlap 200, every pair of consecutive windows overlaps by exactly 200
units. On a 900-character text the code produces the windows `text[0:1000]`
(length 900) and `text[800:1800]` (length 100), whose shared region has only
100 units, so the claim fails as stated. -/
theorem chunk_text_overlap_cex :
    (chunk_text (List.range 900) 1000 200).length = 2 ∧
    ((chunk_text (List.range 900) 1000 200).getD 1 []).length = 100 ∧
    ¬ OverlapBy 200 ((chunk_text (List.range 900) 1000 200).getD 0 [])
      ((chunk_text (List.range 900) 1000 200).getD 1 []) := by
  refine ⟨by decide, by decide, ?_⟩
  intro h
  have h2 := h.2.1
  revert h2
  decide

/-- C3 (amended): chunking any text of length L with the character fallback
at window 1000 / overlap 200 produces exactly `⌈L / 800⌉ = (L + 799) / 800`
windows, each of length at most 1000, and each pair of consecutive windows
overlaps by exactly `min 200 (length of the later window)` units — exactly
200 except when the text ends less than 200 units into the last window. -/
theorem chunk_text_window_shape {α : Type} (t : List α) :
    (chunk_text t 1000 200).length = (t.length + 799) / 800 ∧
    (∀ c ∈ chunk_text t 1000 200, c.length ≤ 1000) ∧
    (∀ j : Nat, j + 1 < (chunk_text t 1000 200).length →
      OverlapBy (min 200 (((chunk_text t 1000 200).getD (j+1) []).length))
        ((chunk_text t 1000 200).getD j [])
        ((chunk_text t 1000 200).getD (j+1) [])) := by
  refine ⟨chunk_text_length t, ?_, ?_⟩
  · intro c hc
    unfold chunk_text at hc
    obtain ⟨i, _, rfl⟩ := List.mem_map.mp hc
    simp
  · intro j h
    have hL : (j + 1) * 800 < t.length := chunk_pair_bound t j h
    rw [chunk_text_getD t j (Nat.lt_of_succ_lt h), chunk_text_getD t (j+1) h]
    have hlen1 : ((t.drop (j*800)).take 1000).length
        = min 1000 (t.length - j*800) := by
      simp
    have hlen2 : ((t.drop ((j+1)*800)).take 1000).length
        = min 1000 (t.length - (j+1)*800) := by
      simp
    refine ⟨?_, min_le_right _ _, ?_⟩
    · rw [hlen1, hlen2]; omega
    · rw [hlen1, hlen2, slice_drop, List.take_take]
      rcases le_or_lt 1000 (t.length - j*800) with hfull | hshort
      · have e1 : j*800 + (min 1000 (t.length - j*800)
            - min 200 (min 1000 (t.length - (j+1)*800))) = (j+1)*800 := by omega
        have e2 : 1000 - (min 1000 (t.length - j*800)
            - min 200 (min 1000 (t.length - (j+1)*800))) = 200 := by omega
        have e3 : min (min 200 (min 1000 (t.length - (j+1)*800))) 1000 = 200 := by
          omega
        rw [e1, e2, e3]
      · have e1 : j*800 + (min 1000 (t.length - j*800)
            - min 200 (min 1000 (t.length - (j+1)*800))) = (j+1)*800 := by omega
        have e2 : 1000 - (min 1000 (t.length - j*800)
            - min 200 (min 1000 (t.length - (j+1)*800))) = 200 := by omega
        have e3 : min (min 200 (min 1000 (t.length - (j+1)*800))) 1000
            = t.length - (j+1)*800 := by omega
        rw [e1, e2, e3]
        rw [List.take_of_length_le (by simp only [List.length_drop]; omega),
          List.take_of_length_le (by simp only [List.length_drop]; omega)]

/-- C3 (witness): the amended statement instantiated on a 900-element text at
the pair of windows 0 and 1, whose overlap is `min 200 100 = 100` units. -/
theorem chunk_text_window_shape_witness :
    OverlapBy (min 200 (((chunk_text (List.range 900) 1000 200).getD (0+1) []).length))
      ((chunk_text (List.range 900) 1000 200).getD 0 [])
      ((chunk_text (List.range 900) 1000 200).getD (0+1) []) :=
  (chunk_text_window_shape (List.range 900)).2.2 0 (by decide)


/-- C1 (counterexample): the claim asserts that a delete notification for a
path with a live record sets the record's status to DELETED and never
removes the row. On a store holding one PENDING record at the path, the
delete handler leaves an empty store: the row is physically gone and no
DELETED-status record exists. -/
theorem on_deleted_removes_row_cex :
    on_deleted [rec_pending] "/v/a.md" = .ok [] := by
  decide

/-- C1 (amended): on a delete notification whose path resolves to a record,
the watch path physically deletes that record's row (`delete_file_status`
issues a SQL DELETE); the surviving rows are exactly the old rows with a
different id, and the record itself is gone — no status is ever set to
DELETED. -/
theorem on_deleted_physically_removes (db : List FileStatus) (p : String)
    (r : FileStatus) (h : get_file_status_by_path db p = .ok (some r)) :
    on_deleted db p = .ok (delete_file_status db r.id) ∧
    (∀ x ∈ delete_file_status db r.id, x ∈ db) ∧
    r ∉ delete_file_status db r.id := by
  refine ⟨?_, ?_, ?_⟩
  · unfold on_deleted
    rw [h]
    rfl
  · intro x hx
    exact (List.mem_filter.mp hx).1
  · intro hr
    have h2 := (List.mem_filter.mp hr).2
    simp at h2

/-- C1 (witness): the amended statement on a one-record store. -/
theorem on_deleted_physically_removes_witness :
    on_deleted [rec_synced] "/v/a.md"
      = .ok (delete_file_status [rec_synced] "i1") ∧
    (∀ x ∈ delete_file_status [rec_synced] "i1", x ∈ [rec_synced]) ∧
    rec_synced ∉ delete_file_status [rec_synced] "i1" :=
  on_deleted_physically_removes [rec_synced] "/v/a.md" rec_synced (by decide)

/-- C2 (counterexample): the claim asserts that a create notification makes a
new record only when no live record exists at the path. Starting from a
store with a live PENDING record at the path, the create handler inserts a
second record at the same path anyway, leaving two live (non-DELETED)
records at one path — the at-most-one-live-record-per-path invariant is not
preserved. -/
theorem on_created_duplicate_live_path_cex :
    on_created [rec_pending] "i2" "/v/a.md" = .ok [rec_pending, rec_dup] ∧
    (List.filter
      (fun r => r.path == "/v/a.md" && !(r.status == FileStatusEnum.DELETED))
      [rec_pending, rec_dup]).length = 2 := by
  constructor
  · decide
  · decide

/-- C2 (amended): a create notification inserts a fresh record
unconditionally (no check for a live record at the path is made, so only
primary-key freshness of the generated uuid is required); once created, a
record's id is never changed by any store operation — status updates and
renames keep the id column of every row, and deletion only removes rows. -/
theorem on_created_unconditional_id_immutable (db : List FileStatus)
    (nid p fid old_p new_p : String) (s : FileStatusEnum)
    (hfresh : ∀ r ∈ db, r.id ≠ nid) :
    on_created db nid p
      = .ok (db ++ [⟨nid, basename p, p, FileStatusEnum.PENDING⟩]) ∧
    (update_file_status db fid s).map FileStatus.id = db.map FileStatus.id ∧
    (rename_file_status db old_p new_p).map FileStatus.id
      = db.map FileStatus.id ∧
    ∀ x ∈ delete_file_status db fid, x ∈ db := by
  refine ⟨?_, ?_, ?_, ?_⟩
  · have hany : db.any (fun r => r.id == nid) = false := by
      rw [List.any_eq_false]
      intro r hr
      simpa using hfresh r hr
    unfold on_created create_file_status
    rw [hany]
    simp
  · simp only [update_file_status, List.map_map]
    refine List.map_congr_left ?_
    intro r _
    by_cases hr : (r.id == fid) = true <;> simp [Function.comp, hr]
  · simp only [rename_file_status, List.map_map]
    refine List.map_congr_left ?_
    intro r _
    by_cases hr : (r.path == old_p) = true <;> simp [Function.comp, hr]
  · intro x hx
    exact (List.mem_filter.mp hx).1

/-- C2 (witness): the amended statement on a one-record store with a fresh
id. -/
theorem on_created_unconditional_id_immutable_witness :
    on_created [rec_pending] "i9" "/v/b.md"
      = .ok ([rec_pending] ++ [⟨"i9", basename "/v/b.md", "/v/b.md", FileStatusEnum.PENDING⟩]) ∧
    (update_file_status [rec_pending] "i1" FileStatusEnum.SYNCED).map
        FileStatus.id
      = [rec_pending].map FileStatus.id ∧
    (rename_file_status [rec_pending] "/v/a.md" "/v/c.md").map FileStatus.id
      = [rec_pending].map FileStatus.id ∧
    ∀ x ∈ delete_file_status [rec_pending] "i1", x ∈ [rec_pending] :=
  on_created_unconditional_id_immutable [rec_pending] "i9" "/v/b.md" "i1"
    "/v/a.md" "/v/c.md" FileStatusEnum.SYNCED (by decide)

/-- C10: a modified or deleted notification whose path has no record in the
store performs no mutation and raises no error: both handlers return the
store unchanged. -/
theorem unmatched_event_no_mutation (db : List FileStatus) (p : String)
    (h : db.filter (fun r => r.path == p) = []) :
    on_modified db p = .ok db ∧ on_deleted db p = .ok db := by
  have hlook : get_file_status_by_path db p = .ok none := by
    unfold get_file_status_by_path
    rw [h]
    rfl
  constructor
  · unfold on_modified
    rw [hlook]
    rfl
  · unfold on_deleted
    rw [hlook]
    rfl

/-- C10 (witness): an event at an unknown path on a one-record store. -/
theorem unmatched_event_no_mutation_witness :
    on_modified [rec_pending] "/v/other.md" = .ok [rec_pending] ∧
    on_deleted [rec_pending] "/v/other.md" = .ok [rec_pending] :=
  unmatched_event_no_mutation [rec_pending] "/v/other.md" (by decide)

/-- C9: a rename event applied to the unique live record at the old path
updates only `path` and `name` (id and status unchanged); afterwards a
status-by-path lookup at the old path returns nothing and a lookup at the
new path returns the same record; records at other paths are untouched. -/
theorem on_moved_rename_frame (db : List FileStatus) (r : FileStatus)
    (old_p new_p : String)
    (h1 : db.filter (fun x => x.path == old_p) = [r])
    (h2 : db.filter (fun x => x.path == new_p) = []) :
    on_moved db old_p new_p = .ok (rename_file_status db old_p new_p) ∧
    get_file_status_by_path (rename_file_status db old_p new_p) old_p
      = .ok none ∧
    get_file_status_by_path (rename_file_status db old_p new_p) new_p
      = .ok (some { r with path := new_p, name := basename new_p }) ∧
    ({ r with path := new_p, name := basename new_p } : FileStatus).id = r.id ∧
    ({ r with path := new_p, name := basename new_p } : FileStatus).status
      = r.status ∧
    (∀ x ∈ db, x.path ≠ old_p → x ∈ rename_file_status db old_p new_p) := by
  have hne : new_p ≠ old_p := by
    intro he
    rw [he] at h2
    rw [h1] at h2
    simp at h2
  have h2p : ∀ x ∈ db, (x.path == new_p) = false := by
    intro x hx
    have := List.filter_eq_nil_iff.mp h2 x hx
    simpa using this
  have hrp : (r.path == old_p) = true := by
    have hrmem : r ∈ db.filter (fun x => x.path == old_p) := by
      rw [h1]; exact List.mem_singleton_self r
    exact (List.mem_filter.mp hrmem).2
  refine ⟨rfl, ?_, ?_, rfl, rfl, ?_⟩
  · unfold get_file_status_by_path rename_file_status
    rw [List.filter_map]
    have hnil : db.filter ((fun x => x.path == old_p) ∘ (fun x =>
        if x.path == old_p then
          { x with path := new_p, name := basename new_p }
        else x)) = [] := by
      rw [List.filter_eq_nil_iff]
      intro a _
      by_cases hap : (a.path == old_p) = true
      · simp [Function.comp, hap, hne]
      · simp [Function.comp, hap]
    rw [hnil]
    rfl
  · unfold get_file_status_by_path rename_file_status
    rw [List.filter_map]
    have hsel : db.filter ((fun x => x.path == new_p) ∘ (fun x =>
        if x.path == old_p then
          { x with path := new_p, name := basename new_p }
        else x)) = db.filter (fun x => x.path == old_p) := by
      apply List.filter_congr
      intro a ha
      by_cases hap : (a.path == old_p) = true
      · simp [Function.comp, hap]
      · simp [Function.comp, hap, h2p a ha]
    rw [hsel, h1]
    have hr_eq : r.path = old_p := by simpa using hrp
    simp [hr_eq, scalar_one_or_none]
  · intro x hx hxp
    unfold rename_file_status
    refine List.mem_map.mpr ⟨x, hx, ?_⟩
    have hfalse : (x.path == old_p) = false := by simpa using hxp
    simp [hfalse]

/-- C9 (witness): a rename of the single tracked record from `/v/a.md` to
`/v/c.md`. -/
theorem on_moved_rename_frame_witness :
    on_moved [rec_pending] "/v/a.md" "/v/c.md"
      = .ok (rename_file_status [rec_pending] "/v/a.md" "/v/c.md") ∧
    get_file_status_by_path
        (rename_file_status [rec_pending] "/v/a.md" "/v/c.md") "/v/a.md"
      = .ok none ∧
    get_file_status_by_path
        (rename_file_status [rec_pending] "/v/a.md" "/v/c.md") "/v/c.md"
      = .ok (some { rec_pending with path := "/v/c.md", name := basename "/v/c.md" }) ∧
    ({ rec_pending with path := "/v/c.md", name := basename "/v/c.md" } : FileStatus).id
      = rec_pending.id ∧
    ({ rec_pending with path := "/v/c.md", name := basename "/v/c.md" } : FileStatus).status
      = rec_pending.status ∧
    (∀ x ∈ [rec_pending], x.path ≠ "/v/a.md" →
      x ∈ rename_file_status [rec_pending] "/v/a.md" "/v/c.md") :=
  on_moved_rename_frame [rec_pending] rec_pending "/v/a.md" "/v/c.md"
    (by decide) (by decide)

lemma index_file_snd (provider : Embedder) (fs : FileSystem)
    (store : VectorStore) (p i : String) :
    (index_file provider fs store p i).2 = index_file_ok provider fs p := by
  unfold index_file index_file_ok
  cases read_file_content fs p with
  | none => rfl
  | some content =>
    dsimp only
    split
    · rfl
    · split
      · rfl
      · cases provider ((chunk_text content.toList 1000 200).map (fun l => String.mk l)) with
        | none => rfl
        | some embeddings => rfl

lemma index_files_loop_spec (provider : Embedder) (fs : FileSystem)
    (l : List (String × String)) (store : VectorStore) :
    (index_files_loop provider fs l store).2.1
      = (l.filter (fun q => index_file_ok provider fs q.1)).length ∧
    (index_files_loop provider fs l store).2.2.1
      = (l.filter (fun q => !(index_file_ok provider fs q.1))).length ∧
    (index_files_loop provider fs l store).2.2.2
      = (l.filter (fun q => !(index_file_ok provider fs q.1))).map Prod.fst := by
  induction l generalizing store with
  | nil => exact ⟨rfl, rfl, rfl⟩
  | cons a rest ih =>
    obtain ⟨p, i⟩ := a
    obtain ⟨ih1, ih2, ih3⟩ := ih (index_file provider fs store p i).1
    have hsnd := index_file_snd provider fs store p i
    cases hok : index_file_ok provider fs p with
    | true =>
      simp only [index_files_loop, hsnd, hok, if_true, List.filter_cons]
      simp [hok, ih1, ih2, ih3]
    | false =>
      simp only [index_files_loop, hsnd, hok, if_false, List.filter_cons]
      simp [hok, ih1, ih2, ih3]

lemma length_filter_add_length_filter_not {α : Type} (l : List α)
    (p : α → Bool) :
    (l.filter p).length + (l.filter (fun x => !(p x))).length = l.length := by
  induction l with
  | nil => rfl
  | cons a t ih =>
    by_cases h : p a = true <;> simp [h, List.filter_cons] <;> omega

/-- C7: an `index_files` call over parallel path/id lists reports
`total = n`, `success + failed = total`, `failed = length failed_files`, and
`failed_files` is exactly the list of submitted paths whose individual
indexing did not succeed, in submission order. -/
theorem index_files_accounting (provider : Embedder) (fs : FileSystem)
    (paths ids : List String) (store : VectorStore)
    (h : paths.length = ids.length) :
    (index_files provider fs paths ids store).map (fun out =>
      (out.2.total, out.2.success + out.2.failed, out.2.failed,
        out.2.failed_files))
      = .ok (paths.length, paths.length,
        (((paths.zip ids).filter
          (fun q => !(index_file_ok provider fs q.1))).map Prod.fst).length,
        ((paths.zip ids).filter
          (fun q => !(index_file_ok provider fs q.1))).map Prod.fst) := by
  obtain ⟨h1, h2, h3⟩ := index_files_loop_spec provider fs (paths.zip ids) store
  unfold index_files
  rw [if_neg (by omega)]
  simp only [Except.map]
  rw [h1, h2, h3]
  have hp := length_filter_add_length_filter_not (paths.zip ids)
    (fun q => index_file_ok provider fs q.1)
  rw [List.length_zip] at hp
  simp only [Except.ok.injEq, Prod.mk.injEq, List.length_map, eq_self_iff_true,
    true_and, and_true]
  omega

/-- C7 (witness): the accounting identity on a two-file batch in which the
first file indexes and the second is missing. -/
theorem index_files_accounting_witness :
    (index_files ok_provider [("/v/a.md", some "aaa")]
      ["/v/a.md", "/v/gone.md"] ["1", "2"] { table := none }).map (fun out =>
      (out.2.total, out.2.success + out.2.failed, out.2.failed,
        out.2.failed_files))
      = .ok ((["/v/a.md", "/v/gone.md"] : List String).length,
        (["/v/a.md", "/v/gone.md"] : List String).length,
        ((((["/v/a.md", "/v/gone.md"] : List String).zip
            (["1", "2"] : List String)).filter
          (fun q => !(index_file_ok ok_provider [("/v/a.md", some "aaa")] q.1))).map
            Prod.fst).length,
        (((["/v/a.md", "/v/gone.md"] : List String).zip
            (["1", "2"] : List String)).filter
          (fun q => !(index_file_ok ok_provider [("/v/a.md", some "aaa")] q.1))).map
            Prod.fst) :=
  index_files_accounting ok_provider [("/v/a.md", some "aaa")]
    ["/v/a.md", "/v/gone.md"] ["1", "2"] { table := none } rfl

/-- C4 (counterexample): the claim asserts that a provider-level embedding
failure for one file propagates out of the batch and fails the remaining
unprocessed files. With a provider that is down exactly for the first
file's batch call, `index_files` returns normally (`ok`, no propagation)
and the second file is processed on its own and succeeds — remaining files
are not failed by the first file's provider failure. -/
theorem index_files_no_propagation_cex :
    (index_files cex_provider [("/v/a.md", some "aaa"), ("/v/b.md", some "bbb")]
      ["/v/a.md", "/v/b.md"] ["1", "2"] { table := none }).map
      (fun out => out.2)
      = .ok ⟨2, 1, 1, ["/v/a.md"]⟩ := by
  decide

/-- C4 (amended): a provider-level embedding failure is caught inside the
failing file's own `index_file` call: it is recorded as that file's failure
and the batch continues, so `index_files` never raises for any provider
behaviour (only the input-shape mismatch raises) and every submitted file
receives its own outcome (`success + failed = total`). -/
theorem index_files_embed_failure_contained (provider : Embedder)
    (fs : FileSystem) (paths ids : List String) (store : VectorStore)
    (h : paths.length = ids.length) :
    (index_files provider fs paths ids store).isOk = true ∧
    (index_files provider fs paths ids store).map
      (fun out => out.2.success + out.2.failed) = .ok paths.length := by
  obtain ⟨h1, h2, _⟩ := index_files_loop_spec provider fs (paths.zip ids) store
  unfold index_files
  rw [if_neg (by omega)]
  refine ⟨rfl, ?_⟩
  simp only [Except.map, Except.ok.injEq]
  rw [h1, h2]
  have hp := length_filter_add_length_filter_not (paths.zip ids)
    (fun q => index_file_ok provider fs q.1)
  rw [List.length_zip] at hp
  omega

/-- C4 (witness): the amended statement on the two-file batch whose first
file hits the provider outage. -/
theorem index_files_embed_failure_contained_witness :
    (index_files cex_provider [("/v/a.md", some "aaa"), ("/v/b.md", some "bbb")]
      ["/v/a.md", "/v/b.md"] ["1", "2"] { table := none }).isOk = true ∧
    (index_files cex_provider [("/v/a.md", some "aaa"), ("/v/b.md", some "bbb")]
      ["/v/a.md", "/v/b.md"] ["1", "2"] { table := none }).map
      (fun out => out.2.success + out.2.failed)
      = .ok (["/v/a.md", "/v/b.md"] : List String).length :=
  index_files_embed_failure_contained cex_provider
    [("/v/a.md", some "aaa"), ("/v/b.md", some "bbb")]
    ["/v/a.md", "/v/b.md"] ["1", "2"] { table := none } rfl

/-- C5 (counterexample): the claim asserts that a file with a disallowed
extension, or one that no longer exists, is skipped with no mutation and not
recorded as failed. Indexing a readable `.exe` file and a missing `.md`
file records both in `failed_files` with `failed = 2` — they are counted as
failures, not skipped. -/
theorem index_files_disallowed_recorded_failed_cex :
    (index_files ok_provider [("/v/tool.exe", some "hello")]
      ["/v/tool.exe", "/v/gone.md"] ["1", "2"] { table := none }).map
      (fun out => out.2)
      = .ok ⟨2, 0, 2, ["/v/tool.exe", "/v/gone.md"]⟩ := by
  decide

/-- C5 (amended): a file whose content cannot be obtained — missing path,
extension outside the allow-list, or a raising read — is treated exactly
like an unreadable file: `index_file` reports failure for it (so the batch
records it as failed), while the vector store itself is left unmutated. -/
theorem index_file_skip_is_failure (provider : Embedder) (fs : FileSystem)
    (store : VectorStore) (p i : String)
    (h : read_file_content fs p = none) :
    index_file provider fs store p i = (store, false) := by
  unfold index_file
  rw [h]

/-- C5 (witness): the amended statement on the `.exe` file fixture. -/
theorem index_file_skip_is_failure_witness :
    index_file ok_provider [("/v/tool.exe", some "hello")] { table := none }
      "/v/tool.exe" "1" = ({ table := none }, false) :=
  index_file_skip_is_failure ok_provider [("/v/tool.exe", some "hello")]
    { table := none } "/v/tool.exe" "1" (by decide)

/-- C6 (counterexample): the claim asserts that removing a file from the
index responds not-found on a second call, and not-found exactly when the
index never held rows for the file id. After a first successful removal
empties the table, the second call still succeeds (returns `true`, and the
API route answers `deleted`), even though no rows for the id remain. -/
theorem delete_from_index_second_call_cex :
    delete_file_from_index { table := some [row_f1] } "f1"
      = ({ table := some [] }, true) ∧
    delete_file_from_index { table := some [] } "f1"
      = ({ table := some [] }, true) ∧
    delete_indexed_file { table := some [] } [] "f1"
      = ({ table := some [] }, [], DeleteApiOutcome.deleted "f1") := by
  refine ⟨by decide, by decide, by decide⟩

/-- C6 (amended): `delete_file_from_index` reports failure (the route's
not-found path) exactly when the index table does not exist; once the table
exists the call succeeds regardless of whether any rows carry the file id
(deleting an absent id in an existing table is a successful no-op), so a
repeated call succeeds again instead of responding not-found, and the rows
kept are exactly those with a different file id. -/
theorem delete_from_index_success_iff_table (store : VectorStore)
    (fid : String) :
    (delete_file_from_index store fid).2 = store.table.isSome ∧
    (delete_file_from_index (delete_file_from_index store fid).1 fid).2
      = store.table.isSome ∧
    (delete_file_from_index store fid).1.table
      = store.table.map (fun rows =>
          rows.filter (fun r => !(r.file_id == fid))) := by
  rcases store with ⟨_ | rows⟩
  · exact ⟨rfl, rfl, rfl⟩
  · exact ⟨rfl, rfl, rfl⟩

/-- C8: for every query and limit, `search_similar` returns at most `limit`
rows, ordered by non-decreasing distance score (ascending, smaller = more
similar); when the index table does not exist it returns the empty list
rather than an error. The external vector search is modelled per the
interface the spec assumes: rows ranked by ascending distance. -/
theorem search_similar_bounded_sorted (provider : Embedder)
    (store : VectorStore) (q : String) (lim : Nat) :
    (search_similar provider store q lim).length ≤ lim ∧
    List.Sorted (fun a b => a.score ≤ b.score)
      (search_similar provider store q lim) ∧
    search_similar provider { table := none } q lim = [] := by
  refine ⟨?_, ?_, ?_⟩
  · unfold search_similar
    cases provider [q] with
    | none => simp
    | some embs =>
      cases embs with
      | nil => simp
      | cons qe rest =>
        cases store.table with
        | none => simp
        | some rows =>
          simp only [lancedb_search, List.length_map]
          exact List.length_take_le lim _
  · unfold search_similar
    cases provider [q] with
    | none => simp
    | some embs =>
      cases embs with
      | nil => simp
      | cons qe rest =>
        cases store.table with
        | none => simp
        | some rows =>
          haveI hT : IsTotal VectorRow (fun r1 r2 =>
              l2_distance qe r1.vector ≤ l2_distance qe r2.vector) :=
            ⟨fun a b => le_total _ _⟩
          haveI hR : IsTrans VectorRow (fun r1 r2 =>
              l2_distance qe r1.vector ≤ l2_distance qe r2.vector) :=
            ⟨fun a b c hab hbc => le_trans hab hbc⟩
          have hs : List.Sorted (fun r1 r2 =>
              l2_distance qe r1.vector ≤ l2_distance qe r2.vector)
              (List.insertionSort (fun r1 r2 =>
                l2_distance qe r1.vector ≤ l2_distance qe r2.vector) rows) :=
            List.sorted_insertionSort _ rows
          have hs2 : List.Sorted (fun r1 r2 =>
              l2_distance qe r1.vector ≤ l2_distance qe r2.vector)
              (lancedb_search rows qe lim) :=
            List.Pairwise.sublist (List.take_sublist lim _) hs
          exact List.Pairwise.map _ (fun a b hab => hab) hs2
  · cases hp : provider [q] with
    | none => unfold search_similar; rw [hp]
    | some embs =>
      cases embs with
      | nil => unfold search_similar; rw [hp]
      | cons qe rest => unfold search_similar; rw [hp]
